import Mathlib

/-!
Shallow embedding of the model-categorizer microservice
(`src/Microservice/model-categorizer-rust`), covering the classifier
(`classifiers/classifier.rs`, `pattern_matcher.rs`, `context_resolver.rs`),
the model comparator and utilities (`handlers/utils.rs`) and the hierarchy
builder and gRPC handler (`handlers/mod.rs`).

Modelling conventions:
- Rust `String`/`&str` become Lean `String`; `str::to_lowercase` is modelled
  by the ASCII-exact `to_lower` below (Rust performs full Unicode lowering,
  which coincides with this on ASCII input).
- Rust `HashMap` rule tables are modelled as association lists in source
  insertion order.  Rust's `HashMap` iteration order is arbitrary; where a
  lookup scans the table with substring containment (the context-size table),
  the iteration order is kept as an explicit parameter so that theorems can
  quantify over it.
- `i32` values become `Int`; none of the embedded arithmetic can overflow
  an `i32`, so no wrap-around modelling is needed.
- The comparator parses version strings with `parse::<f64>`; the parsed
  values are modelled as exact rationals represented as numerator/denominator
  pairs (`VerNum`), and the `f64::EPSILON` comparison becomes an exact
  cross-multiplied integer comparison with epsilon `1 / 2^52`.
-/

/-- ASCII lowercase of one char (codes 65-90 map to 97-122); models Rust
`to_lowercase` on the ASCII range. -/
def to_lower_char (c : Char) : Char :=
  if 65 ≤ c.toNat ∧ c.toNat ≤ 90 then Char.ofNat (c.toNat + 32) else c

/-- Models Rust `str::to_lowercase` (ASCII-exact). -/
def to_lower (s : String) : String := ⟨s.data.map to_lower_char⟩

/-- Does the char list start with the given pattern? -/
def startsWithChars : List Char → List Char → Bool
  | _, [] => true
  | [], _ :: _ => false
  | c :: cs, p :: ps => c == p && startsWithChars cs ps

/-- Does the char list contain the pattern as a contiguous sublist? -/
def containsChars (s pat : List Char) : Bool :=
  startsWithChars s pat ||
    match s with
    | [] => false
    | _ :: cs => containsChars cs pat

/-- Models Rust `s.contains(pat)` (substring containment). -/
def hasSubstr (s pat : String) : Bool := containsChars s.data pat.data

/-- Models Rust `s.starts_with(pat)`. -/
def strStartsWith (s pat : String) : Bool := startsWithChars s.data pat.data

/-- Three-way comparison of chars by code point. -/
def charCmp (a b : Char) : Ordering :=
  if a.toNat < b.toNat then .lt else if b.toNat < a.toNat then .gt else .eq

/-- Lexicographic three-way comparison of char lists. -/
def charsCmp : List Char → List Char → Ordering
  | [], [] => .eq
  | [], _ :: _ => .lt
  | _ :: _, [] => .gt
  | a :: as, b :: bs =>
    match charCmp a b with
    | .eq => charsCmp as bs
    | o => o

/-- Models Rust `String::cmp`: byte-lexicographic order, which on UTF-8 agrees
with code-point-lexicographic order. -/
def strCmp (a b : String) : Ordering := charsCmp a.data b.data

/-- Is the char an ASCII digit (codes 48-57)? -/
def digit_char (c : Char) : Bool := 48 ≤ c.toNat && c.toNat ≤ 57

/-- Numeric value of a list of ASCII digits. -/
def natOfDigits (cs : List Char) : Nat :=
  cs.foldl (fun n c => n * 10 + (c.toNat - 48)) 0

/-- Three-way `Int` comparison (Rust `i32::cmp`). -/
def intCmp (x y : Int) : Ordering :=
  if x < y then .lt else if y < x then .gt else .eq

/-- Three-way `Nat` comparison (Rust `usize::cmp`). -/
def natCmp (x y : Nat) : Ordering :=
  if x < y then .lt else if y < x then .gt else .eq

/-- Three-way `Bool` comparison (Rust `bool::cmp`, `false < true`). -/
def boolCmp (x y : Bool) : Ordering :=
  if x = y then .eq else if y then .lt else .gt

/- ---------------------------------------------------------------------
PatternMatcher (`classifiers/pattern_matcher.rs`)
--------------------------------------------------------------------- -/

/-- Provider pattern table (`PatternMatcher::new`), in insertion order. -/
def provider_patterns : List (String × List String) :=
  [("openai", ["openai", "gpt", "o1", "dall-e"]),
   ("anthropic", ["anthropic", "claude"]),
   ("gemini", ["gemini", "google"]),
   ("meta", ["meta", "llama", "meta-llama"]),
   ("mistral", ["mistral", "mixtral"]),
   ("openrouter", ["openrouter"])]

/-- Claude 3 series patterns. -/
def claude3_patterns : List String := ["claude-3", "claude3", "claude-3.5", "claude-3.7"]

/-- Claude 2 series patterns. -/
def claude2_patterns : List String := ["claude-2", "claude2"]

/-- Claude 1 series patterns. -/
def claude1_patterns : List String := ["claude-1", "claude1", "claude-instant"]

/-- Series pattern table (`PatternMatcher::new`), in insertion order. -/
def series_patterns : List (String × List String) :=
  [("Claude 3", claude3_patterns),
   ("Claude 2", claude2_patterns),
   ("Claude 1", claude1_patterns),
   ("Gemini 1.0", ["gemini-1.0", "gemini-1.0-pro"]),
   ("Gemini 1.5", ["gemini-1.5", "gemini-1.5-pro", "gemini-1.5-flash"]),
   ("Gemini 2.0", ["gemini-2.0", "gemini-2.0-pro", "gemini-2.0-flash"]),
   ("Gemini 2.5", ["gemini-2.5", "gemini-2.5-pro", "gemini-2.5-flash"]),
   ("Gemma 2", ["gemma-2"]),
   ("Image Generation", ["dall-e", "imagen", "midjourney", "stable-diffusion"]),
   ("Embedding", ["embedding", "text-embedding", "embed"])]

/-- Type pattern table (`PatternMatcher::new`), in insertion order. -/
def type_patterns : List (String × List String) :=
  [("O Series", ["o1", "o3", "o4"]),
   ("GPT 3.5", ["gpt-3.5", "gpt3.5"]),
   ("GPT 4", ["gpt-4", "gpt4", "gpt-4o"]),
   ("GPT 4.5", ["gpt-4.5", "gpt4.5"]),
   ("Mini", ["mini"]),
   ("Opus", ["opus"]),
   ("Sonnet", ["sonnet"]),
   ("Haiku", ["haiku"]),
   ("Pro", ["pro"]),
   ("Flash Lite", ["flash-lite"]),
   ("Flash", ["flash"]),
   ("Thinking", ["thinking"]),
   ("Vision", ["vision", "multimodal"]),
   ("Embedding", ["embedding", "embed", "tts"])]

/-- `PatternMatcher::match_provider_by_name`: exact (lowercased) name match
against the provider table keys.  Keys are pairwise distinct, so the hash-map
iteration order is irrelevant here. -/
def match_provider_by_name (provider_name : String) : String :=
  match (provider_patterns.map Prod.fst).find? (fun p => provider_name == to_lower p) with
  | some p => p
  | none => ""

/-- `PatternMatcher::match_provider_by_pattern`: first provider whose pattern
list has a substring match in the lowercased model name. -/
def match_provider_by_pattern (model_name : String) : String :=
  let lower := to_lower model_name
  match provider_patterns.find? (fun e => e.2.any (fun pat => hasSubstr lower pat)) with
  | some e => e.1
  | none => ""

/-- `PatternMatcher::match_claude_version`: Claude 3, then 2, then 1. -/
def match_claude_version (model_name : String) : String :=
  let lower := to_lower model_name
  if claude3_patterns.any (fun pat => hasSubstr lower pat) then "Claude 3"
  else if claude2_patterns.any (fun pat => hasSubstr lower pat) then "Claude 2"
  else if claude1_patterns.any (fun pat => hasSubstr lower pat) then "Claude 1"
  else ""

/-- `PatternMatcher::match_gemini_version`. -/
def match_gemini_version (model_name : String) : String :=
  let lower := to_lower model_name
  if hasSubstr lower "2.5" then "Gemini 2.5"
  else if hasSubstr lower "2.0" then "Gemini 2.0"
  else if hasSubstr lower "1.5" then "Gemini 1.5"
  else "Gemini 1.0"

/-- `PatternMatcher::match_series_by_pattern`: first series whose pattern list
has a substring match. -/
def match_series_by_pattern (model_name : String) : String :=
  let lower := to_lower model_name
  match series_patterns.find? (fun e => e.2.any (fun pat => hasSubstr lower pat)) with
  | some e => e.1
  | none => ""

/-- `PatternMatcher::match_openai_type`. -/
def match_openai_type (model_name : String) : String :=
  let lower := to_lower model_name
  if hasSubstr lower "mini" then "Mini"
  else if hasSubstr lower "o1" || hasSubstr lower "o3" then "O Series"
  else if hasSubstr lower "gpt-4.5" then "GPT 4.5"
  else if hasSubstr lower "gpt-4" then "GPT 4"
  else if hasSubstr lower "gpt-3.5" then "GPT 3.5"
  else "Standard"

/-- `PatternMatcher::match_anthropic_type`. -/
def match_anthropic_type (model_name : String) : String :=
  let lower := to_lower model_name
  if hasSubstr lower "opus" then "Opus"
  else if hasSubstr lower "sonnet" then "Sonnet"
  else if hasSubstr lower "haiku" then "Haiku"
  else "Standard"

/-- `PatternMatcher::match_gemini_type`. -/
def match_gemini_type (model_name : String) : String :=
  let lower := to_lower model_name
  if hasSubstr lower "flash-lite" then "Flash Lite"
  else if hasSubstr lower "thinking" then "Thinking"
  else if hasSubstr lower "flash" then "Flash"
  else if hasSubstr lower "pro" then "Pro"
  else if hasSubstr lower "gemma" then "Gemma"
  else "Standard"

/-- `PatternMatcher::match_type_by_pattern`: first type whose pattern list has
a substring match. -/
def match_type_by_pattern (model_name : String) : String :=
  let lower := to_lower model_name
  match type_patterns.find? (fun e => e.2.any (fun pat => hasSubstr lower pat)) with
  | some e => e.1
  | none => ""

/-- `PatternMatcher::match_openai_variant`. -/
def match_openai_variant (model_name : String) : String :=
  let lower := to_lower model_name
  if hasSubstr lower "gpt-4.5" then "GPT-4.5"
  else if hasSubstr lower "gpt-4o-mini" then "GPT-4o Mini"
  else if hasSubstr lower "gpt-4o" then "GPT-4o"
  else if hasSubstr lower "gpt-4-turbo" then "GPT-4 Turbo"
  else if hasSubstr lower "gpt-4-vision" then "GPT-4 Vision"
  else if hasSubstr lower "o1-mini" then "O1 Mini"
  else if hasSubstr lower "o1" then "O1"
  else ""

/-- `PatternMatcher::match_anthropic_variant`. -/
def match_anthropic_variant (model_name : String) : String :=
  let lower := to_lower model_name
  if hasSubstr lower "claude-3.7" then "Claude 3.7"
  else if hasSubstr lower "claude-3.5" then "Claude 3.5"
  else if hasSubstr lower "claude-3" then "Claude 3.0"
  else if hasSubstr lower "claude-2" then "Claude 2.0"
  else if hasSubstr lower "claude-instant" then "Claude Instant"
  else ""

/-- `PatternMatcher::build_gemini_variant`. -/
def build_gemini_variant (model_name : String) : String :=
  let lower := to_lower model_name
  let version :=
    if hasSubstr lower "2.5" then "2.5"
    else if hasSubstr lower "2.0" then "2.0"
    else if hasSubstr lower "1.5" then "1.5"
    else if hasSubstr lower "1.0" then "1.0"
    else ""
  let typ :=
    if hasSubstr lower "flash-lite" then "Flash Lite"
    else if hasSubstr lower "thinking" then "Thinking"
    else if hasSubstr lower "flash" then "Flash"
    else if hasSubstr lower "pro" then "Pro"
    else ""
  if version ≠ "" ∧ typ ≠ "" then "Gemini " ++ version ++ " " ++ typ
  else if version ≠ "" then "Gemini " ++ version
  else if typ ≠ "" then "Gemini " ++ typ
  else ""

/-- Insert a capability key into the capability map if absent; models
`HashMap::insert` with value `true` on a map whose values are all `true`
(the key set is what matters; keys are kept in insertion order). -/
def add_capability (caps : List String) (k : String) : List String :=
  if k ∈ caps then caps else caps ++ [k]

/-- `PatternMatcher::add_capabilities`: conditionally grant vision and
function-calling. -/
def add_capabilities (caps : List String) (model_type model_name provider series : String) : List String :=
  let lower := to_lower model_name
  let caps :=
    if hasSubstr lower "vision" || hasSubstr lower "multimodal"
        || ["GPT 4", "GPT 4.5", "O Series"].contains model_type
        || series == "Claude 3" || hasSubstr lower "4o"
        || strStartsWith series "Gemini" then
      add_capability caps "vision"
    else caps
  if ["GPT 4", "GPT 4.5", "GPT 3.5", "O Series"].contains model_type
      || series == "Claude 3" || strStartsWith series "Gemini" then
    add_capability caps "function-calling"
  else caps

/- ---------------------------------------------------------------------
ContextResolver (`classifiers/context_resolver.rs`)
--------------------------------------------------------------------- -/

/-- The context-size table (`ContextResolver::new`), in source insertion
order.  The Rust code stores these entries in a `HashMap` and scans it with
substring containment, so the effective scan order is an arbitrary
permutation of this list. -/
def context_entries : List (String × Int) :=
  [("gpt-4o", 128000),
   ("gpt-4o-mini", 128000),
   ("gpt-4-turbo", 128000),
   ("gpt-4-vision", 128000),
   ("gpt-4-32k", 32768),
   ("gpt-4", 8192),
   ("gpt-4.5", 128000),
   ("gpt-3.5-turbo-16k", 16385),
   ("gpt-3.5-turbo", 4096),
   ("o1", 32768),
   ("o1-mini", 32768),
   ("claude-3-opus", 200000),
   ("claude-3-sonnet", 200000),
   ("claude-3-haiku", 200000),
   ("claude-3.5-sonnet", 200000),
   ("claude-3.7-opus", 200000),
   ("claude-2", 100000),
   ("claude-instant", 100000),
   ("gemini-1.0-pro", 32768),
   ("gemini-1.5-pro", 1000000),
   ("gemini-1.5-flash", 1000000),
   ("gemini-2.0-pro", 2000000),
   ("gemini-2.0-flash", 1000000),
   ("gemini-2.0-flash-lite", 1000000)]

/-- `ContextResolver::get_context_size_by_family`: ordered family
heuristics.  The single-quoted `'o'` check of the Rust source is substring
containment of the one-letter string "o". -/
def get_context_size_by_family (lower : String) : Int :=
  if hasSubstr lower "gpt-4.5" then 128000
  else if hasSubstr lower "gpt-4" then
    (if hasSubstr lower "32k" then 32768
     else if hasSubstr lower "turbo" || hasSubstr lower "o" then 128000
     else 8192)
  else if hasSubstr lower "gpt-3.5" then
    (if hasSubstr lower "16k" then 16385 else 4096)
  else if hasSubstr lower "claude-3" then 200000
  else if hasSubstr lower "claude-2" || hasSubstr lower "claude-instant" then 100000
  else if hasSubstr lower "gemini-1.0" then 32768
  else if hasSubstr lower "gemini-1.5" || hasSubstr lower "gemini-2.0" then 1000000
  else 0

/-- `ContextResolver::get_context_size`, parameterized by the iteration
order `ctx_order` of the context table: the first entry (in that order)
whose key is contained in the lowercased model id wins; otherwise the
family heuristics apply. -/
def get_context_size_with (ctx_order : List (String × Int)) (model_id : String) : Int :=
  let lower := to_lower model_id
  match ctx_order.find? (fun e => hasSubstr lower e.1) with
  | some e => e.2
  | none => get_context_size_by_family lower

/-- `ContextResolver::get_context_size` with the table in insertion order. -/
def get_context_size (model_id : String) : Int :=
  get_context_size_with context_entries model_id

/- ---------------------------------------------------------------------
ModelClassifier (`classifiers/classifier.rs`)
--------------------------------------------------------------------- -/

/-- Structured metadata for a model (`ModelMetadata`). -/
structure ModelMetadata where
  provider : String
  series : String
  model_type : String
  variant : String
  context : Int
  capabilities : List String
  is_multimodal : Bool
  is_experimental : Bool
  display_name : String
deriving Repr, DecidableEq

/-- `ModelClassifier::is_embedding_model`. -/
def is_embedding_model (model_name : String) : Bool :=
  hasSubstr model_name "embedding" || hasSubstr model_name "embed" || hasSubstr model_name "text-embedding"

/-- `ModelClassifier::is_image_generation_model`. -/
def is_image_generation_model (model_name : String) : Bool :=
  hasSubstr model_name "image" || hasSubstr model_name "dall-e" || hasSubstr model_name "stable-diffusion"

/-- Prefix of `model_name` before the first `/` (code 47), if any; models
Rust `str::split_once('/')`. -/
def slash_prefix (model_name : String) : Option String :=
  if model_name.data.any (fun c => c.toNat = 47) then
    some ⟨model_name.data.takeWhile (fun c => c.toNat ≠ 47)⟩
  else none

/-- `ModelClassifier::determine_provider`: hint, then slash prefix, then
pattern containment, then "other". -/
def determine_provider (model_name provider_hint : String) : String :=
  let from_hint :=
    if provider_hint ≠ "" then match_provider_by_name (to_lower provider_hint) else ""
  if from_hint ≠ "" then from_hint
  else
    let from_slash :=
      match slash_prefix model_name with
      | some pref => match_provider_by_name (to_lower pref)
      | none => ""
    if from_slash ≠ "" then from_slash
    else
      let p := match_provider_by_pattern model_name
      if p ≠ "" then p else "other"

/-- `ModelClassifier::determine_series`.  The OpenAI branch looks at the
first char (Rust `chars().next().unwrap_or_default()`, default `'\0'`). -/
def determine_series (model_name provider : String) : String :=
  if provider = "openai" then
    let c0 := model_name.data.headD (Char.ofNat 0)
    if c0.toNat = 111 then "O"          -- 'o'
    else if c0.toNat = 103 then "GPT"   -- 'g'
    else if c0.toNat = 100 then "DALL-E" -- 'd'
    else
      let v := match_series_by_pattern model_name
      if v ≠ "" then v else "General"
  else if provider = "anthropic" then
    let v := match_claude_version model_name
    if v ≠ "" then v
    else
      let v2 := match_series_by_pattern model_name
      if v2 ≠ "" then v2 else "General"
  else if provider = "gemini" then match_gemini_version model_name
  else
    let v := match_series_by_pattern model_name
    if v ≠ "" then v else "General"

/-- `ModelClassifier::determine_type` (the `series` argument is unused in
the source as well). -/
def determine_type (model_name provider series : String) : String :=
  if provider = "openai" then match_openai_type model_name
  else if provider = "anthropic" then match_anthropic_type model_name
  else if provider = "gemini" then match_gemini_type model_name
  else
    let t := match_type_by_pattern model_name
    if t ≠ "" then t else "Standard"

/-- Parse a digit string as Rust `i32` (fails on empty, non-digit chars, or
overflow past 2147483647); the parsed values are non-negative. -/
def parse_i32 (cs : List Char) : Option Nat :=
  if cs ≠ [] ∧ cs.all (fun c => digit_char c) ∧ natOfDigits cs ≤ 2147483647 then
    some (natOfDigits cs)
  else none

/-- Split a char list on spaces (code 32), dropping empty groups; models
Rust `split_whitespace` on space-separated input. -/
def splitOnSpacesAux : List Char → List Char → List (List Char)
  | [], acc => if acc.isEmpty then [] else [acc.reverse]
  | c :: cs, acc =>
    if c.toNat = 32 then
      (if acc.isEmpty then splitOnSpacesAux cs [] else acc.reverse :: splitOnSpacesAux cs [])
    else splitOnSpacesAux cs (c :: acc)

/-- Split a char list on spaces. -/
def splitOnSpaces (cs : List Char) : List (List Char) := splitOnSpacesAux cs []

/-- `extract_version_numbers`: keep digits and dots (code 46), blank out the
rest, split on whitespace, parse each part as `i32` (so parts containing a
dot are dropped). -/
def extract_version_numbers (s : String) : List Nat :=
  let filtered := s.data.map (fun c => if digit_char c || c.toNat = 46 then c else Char.ofNat 32)
  (splitOnSpaces filtered).filterMap parse_i32

/-- Join version numbers with dots (Rust `Vec::join(".")`). -/
def joinVersionDots (ns : List Nat) : String :=
  String.intercalate "." (ns.map (fun n => Nat.repr n))

/-- `extract_version_variant`: "series n1.n2...", or "" when no number. -/
def extract_version_variant (model_name series : String) : String :=
  let nums := extract_version_numbers model_name
  if nums = [] then "" else series ++ " " ++ joinVersionDots nums

/-- `ModelClassifier::determine_variant`. -/
def determine_variant (model_name provider series : String) : String :=
  let from_provider :=
    if provider = "openai" then match_openai_variant model_name
    else if provider = "anthropic" then match_anthropic_variant model_name
    else if provider = "gemini" then build_gemini_variant model_name
    else ""
  if from_provider ≠ "" then from_provider
  else
    let v := extract_version_variant model_name series
    if v ≠ "" then v else series

/-- The sort relation of `detect_capabilities`:
`a.to_lowercase().cmp(&b.to_lowercase())` is not `Greater`. -/
def cap_le (a b : String) : Prop := strCmp (to_lower a) (to_lower b) ≠ Ordering.gt

instance cap_le_dec : DecidableRel cap_le := fun a b => by unfold cap_le; infer_instance

/-- `ModelClassifier::detect_capabilities`: grant pattern capabilities, force
"chat", then sort ascending by lowercased name.  Rust `sort_by` is a stable
sort, modelled by the stable `List.insertionSort`; the keys are pairwise
distinct even after lowercasing, so stability and the hash-map collection
order do not affect the sorted result. -/
def detect_capabilities (model_name provider series : String) : List String :=
  let caps := add_capabilities [] (determine_type model_name provider series) model_name provider series
  let caps := add_capability caps "chat"
  List.insertionSort cap_le caps

/-- `ModelClassifier::is_multimodal`. -/
def metadata_is_multimodal (caps : List String) (series : String) : Bool :=
  caps.any (fun c => c == "vision") || hasSubstr series "Vision"

/-- `ModelClassifier::is_experimental`. -/
def metadata_is_experimental (model_name : String) : Bool :=
  hasSubstr model_name "alpha" || hasSubstr model_name "beta" || hasSubstr model_name "experimental"

/-- `ModelClassifier::create_image_generation_metadata`. -/
def create_image_generation_metadata (model_name provider_hint : String) : ModelMetadata :=
  { provider := determine_provider model_name provider_hint
    series := "Image Generation"
    model_type := "Image Generation"
    variant := "Image Generation"
    context := 0
    capabilities := ["Image Generation"]
    is_multimodal := false
    is_experimental := false
    display_name := model_name }

/-- `ModelClassifier::create_embedding_model_metadata`. -/
def create_embedding_model_metadata (model_name provider_hint : String) : ModelMetadata :=
  { provider := determine_provider model_name provider_hint
    series := "Embedding"
    model_type := "Embedding"
    variant := "Embedding"
    context := 0
    capabilities := ["embedding"]
    is_multimodal := false
    is_experimental := false
    display_name := model_name }

/-- `ModelClassifier::build_standard_model_metadata`, with the context-table
iteration order as a parameter. -/
def build_standard_model_metadata_with (ctx_order : List (String × Int)) (model_name provider_hint : String) : ModelMetadata :=
  let provider := determine_provider model_name provider_hint
  let series := determine_series model_name provider
  let model_type := determine_type model_name provider series
  let variant := determine_variant model_name provider series
  let context := get_context_size_with ctx_order model_name
  let caps := detect_capabilities model_name provider series
  { provider := provider
    series := series
    model_type := model_type
    variant := variant
    context := context
    capabilities := caps
    is_multimodal := metadata_is_multimodal caps series
    is_experimental := metadata_is_experimental model_name
    display_name := model_name }

/-- `ModelClassifier::classify_model`, with the context-table iteration order
as a parameter. -/
def classify_model_with (ctx_order : List (String × Int)) (model_id provider_hint : String) : ModelMetadata :=
  let model_lower := to_lower model_id
  if is_image_generation_model model_lower then
    create_image_generation_metadata model_lower provider_hint
  else if is_embedding_model model_lower then
    create_embedding_model_metadata model_lower provider_hint
  else
    build_standard_model_metadata_with ctx_order model_lower provider_hint

/-- `ModelClassifier::classify_model` with the context table in insertion
order. -/
def classify_model (model_id provider_hint : String) : ModelMetadata :=
  classify_model_with context_entries model_id provider_hint

/- ---------------------------------------------------------------------
Internal data model (`models/mod.rs`)
--------------------------------------------------------------------- -/

/-- Internal representation of a single LLM model (`models/mod.rs::Model`).
The `f64` field `cost_per_token` is modelled as an exact rational and the
string-to-string metadata `HashMap` as an association list; neither is read
by any embedded logic. -/
structure Model where
  id : String
  name : Option String
  context_size : Int
  max_tokens : Int
  provider : String
  original_provider : Option String
  display_name : Option String
  description : Option String
  cost_per_token : Rat
  capabilities : List String
  family : Option String
  model_type : Option String
  series : Option String
  variant : Option String
  is_default : Bool
  is_multimodal : Bool
  is_experimental : Bool
  version : Option String
  metadata : List (String × String)
deriving DecidableEq

/- ---------------------------------------------------------------------
ModelSorter (`handlers/utils.rs::sort_models`)
--------------------------------------------------------------------- -/

/-- An exact rational value `num / den` (`den` a positive power of ten),
modelling a version string parsed with Rust `parse::<f64>` (version strings
are filtered to digits and dots before parsing, so the value is a
non-negative decimal). -/
structure VerNum where
  num : Nat
  den : Nat
deriving DecidableEq

/-- Parse a digit/dot char list as Rust `parse::<f64>` does, modelled
exactly: `0/1` on a parse error (empty input, more than one dot, or no
digit at all).  Rust rounds the mathematical value to the nearest `f64`;
this model keeps it exact. -/
def parse_ver_chars (cs : List Char) : VerNum :=
  let ip := cs.takeWhile (fun c => c.toNat ≠ 46)
  let rest := cs.dropWhile (fun c => c.toNat ≠ 46)
  match rest with
  | [] =>
    if ip ≠ [] ∧ ip.all (fun c => digit_char c) then ⟨natOfDigits ip, 1⟩ else ⟨0, 1⟩
  | _ :: fp =>
    if fp.all (fun c => c.toNat ≠ 46) then
      (if (ip ++ fp) ≠ [] ∧ (ip ++ fp).all (fun c => digit_char c) then
        ⟨natOfDigits ip * 10 ^ fp.length + natOfDigits fp, 10 ^ fp.length⟩
      else ⟨0, 1⟩)
    else ⟨0, 1⟩

/-- Version value of a model: version string (empty when absent), filtered
to digits and dots (code 46), then parsed. -/
def version_val (m : Model) : VerNum :=
  parse_ver_chars ((m.version.getD "").data.filter (fun c => digit_char c || c.toNat = 46))

/-- Does `|va - vb| > f64::EPSILON` hold?  Exactly:
`|na*db - nb*da| * 2^52 > da * db` (both denominators are positive). -/
def verDiffGtEps (a b : VerNum) : Bool :=
  let x := a.num * b.den
  let y := b.num * a.den
  (if x ≥ y then x - y else y - x) * 4503599627370496 > a.den * b.den

/-- Models `vb.partial_cmp(&va)` for the parsed versions (descending order
step): compare `b` against `a` as exact rationals. -/
def verCmpDesc (a b : VerNum) : Ordering :=
  natCmp (b.num * a.den) (a.num * b.den)

/-- Lowercased display name, falling back to the id
(`a.name.clone().unwrap_or_else(|| a.id.clone()).to_lowercase()`). -/
def name_key (m : Model) : String := to_lower (m.name.getD m.id)

/-- Display-name byte length (Rust `String::len`), falling back to the id. -/
def name_byte_len (m : Model) : Nat := (m.name.getD m.id).utf8ByteSize

/-- Provider priority map of `sort_models`
(gemini 0, openai 1, openrouter 2, anthropic/claude 3, unranked 100). -/
def provider_priority (p : String) : Int :=
  if p = "gemini" then 0
  else if p = "openai" then 1
  else if p = "openrouter" then 2
  else if p = "anthropic" then 3
  else if p = "claude" then 3
  else 100

/-- Gemini type priority map (default: the "Standard" rank 5). -/
def gemini_type_priority (t : String) : Int :=
  if t = "Flash Lite" then 0
  else if t = "Flash" then 1
  else if t = "Pro" then 2
  else if t = "Thinking" then 3
  else if t = "Gemma" then 4
  else 5

/-- OpenAI type priority map (default: the "other" rank 5). -/
def openai_type_priority (t : String) : Int :=
  if t = "Mini" then 0
  else if t = "O Series" then 1
  else if t = "GPT 4.5" then 2
  else if t = "GPT 4" then 3
  else if t = "GPT 3.5" then 4
  else 5

/-- Claude type priority map (default: the "other" rank 3). -/
def claude_type_priority (t : String) : Int :=
  if t = "Sonnet" then 0
  else if t = "Opus" then 1
  else if t = "Haiku" then 2
  else 3

/-- The `mini_prio` sub-priority of the OpenAI mini special case. -/
def mini_name_priority (name : String) : Int :=
  if name = "4o-mini" ∨ name = "gpt-4o-mini" then 0
  else if name = "o1-mini" ∨ name = "gpt-o1-mini" then 1
  else if hasSubstr name "4o-mini" then 2
  else if hasSubstr name "o1-mini" then 3
  else 4

/-- Shared tail of the comparator: descending parsed version, then ascending
lowercased name. -/
def tail_cmp (a b : Model) : Ordering :=
  if verDiffGtEps (version_val a) (version_val b) then verCmpDesc (version_val a) (version_val b)
  else strCmp (name_key a) (name_key b)

/-- OpenAI "mini" vs "mini" special case of `sort_models`. -/
def mini_cmp (a b : Model) : Ordering :=
  if mini_name_priority (name_key a) ≠ mini_name_priority (name_key b) then
    intCmp (mini_name_priority (name_key a)) (mini_name_priority (name_key b))
  else if verDiffGtEps (version_val a) (version_val b) then verCmpDesc (version_val a) (version_val b)
  else strCmp (name_key a) (name_key b)

/-- GPT-4 vs GPT-4 special ordering of `sort_models` (`some` models an early
`return`). -/
def gpt4_special (a b : Model) : Option Ordering :=
  if a.model_type.getD "Standard" = "GPT 4" ∧ b.model_type.getD "Standard" = "GPT 4" then
    let ba := name_key a == "gpt-4o" || name_key a == "4o"
    let bb := name_key b == "gpt-4o" || name_key b == "4o"
    if ba ≠ bb then some (boolCmp bb ba)
    else
      let xa := hasSubstr (name_key a) "4o" && !(hasSubstr (name_key a) "4o-mini")
      let xb := hasSubstr (name_key b) "4o" && !(hasSubstr (name_key b) "4o-mini")
      if xa ≠ xb then some (boolCmp xb xa) else none
  else none

/-- Gemini branch of `sort_models`: type priority, then the shared tail. -/
def gemini_cmp (a b : Model) : Ordering :=
  let ra := gemini_type_priority (a.model_type.getD "Standard")
  let rb := gemini_type_priority (b.model_type.getD "Standard")
  if ra ≠ rb then intCmp ra rb else tail_cmp a b

/-- OpenAI branch of `sort_models`: type priority, the GPT-4 special case,
the "other"-bucket shortest-name rule, then the shared tail. -/
def openai_cmp (a b : Model) : Ordering :=
  let ra := openai_type_priority (a.model_type.getD "Standard")
  let rb := openai_type_priority (b.model_type.getD "Standard")
  if ra ≠ rb then intCmp ra rb
  else
    match gpt4_special a b with
    | some o => o
    | none =>
      if ra = 5 ∧ rb = 5 then natCmp (name_byte_len a) (name_byte_len b)
      else tail_cmp a b

/-- Anthropic/claude branch of `sort_models`: type priority, then the shared
tail. -/
def claude_cmp (a b : Model) : Ordering :=
  let ra := claude_type_priority (a.model_type.getD "Standard")
  let rb := claude_type_priority (b.model_type.getD "Standard")
  if ra ≠ rb then intCmp ra rb else tail_cmp a b

/-- The comparator closure passed to `sort_by` in `sort_models`. -/
def cmpModels (a b : Model) : Ordering :=
  if provider_priority (to_lower a.provider) ≠ provider_priority (to_lower b.provider) then
    intCmp (provider_priority (to_lower a.provider)) (provider_priority (to_lower b.provider))
  else if to_lower a.provider = "openai"
      ∧ to_lower (a.model_type.getD "Standard") = "mini"
      ∧ to_lower (b.model_type.getD "Standard") = "mini" then
    mini_cmp a b
  else if to_lower a.provider = "gemini" then gemini_cmp a b
  else if to_lower a.provider = "openai" then openai_cmp a b
  else if to_lower a.provider = "anthropic" ∨ to_lower a.provider = "claude" then claude_cmp a b
  else tail_cmp a b

/-- The sort relation induced by the comparator: `cmp a b` is not
`Greater`. -/
def model_le (a b : Model) : Prop := cmpModels a b ≠ Ordering.gt

instance model_le_dec : DecidableRel model_le := fun a b => by unfold model_le; infer_instance

/-- `sort_models`: Rust `sort_by` is a stable sort, modelled by the stable
`List.insertionSort` with `le a b ↔ cmp a b ≠ Greater`.  (When the
comparator is not a consistent total order Rust documents the resulting
order as unspecified; any stable sort is a faithful model on inputs where
the comparator is consistent.) -/
def sort_models (models_list : List Model) : List Model :=
  List.insertionSort model_le models_list

/- ---------------------------------------------------------------------
Hierarchy builder (`handlers/mod.rs::build_model_hierarchy`)
--------------------------------------------------------------------- -/

/-- Hierarchical grouping of models (`HierarchicalModelGroup`). -/
inductive HierarchicalModelGroup : Type where
  | mk (group_name : String) (group_value : String) (models : List Model)
      (children : List HierarchicalModelGroup) : HierarchicalModelGroup

/-- Group dimension name ("provider" | "type" | "version"). -/
def HierarchicalModelGroup.group_name : HierarchicalModelGroup → String
  | mk n _ _ _ => n

/-- Group key value. -/
def HierarchicalModelGroup.group_value : HierarchicalModelGroup → String
  | mk _ v _ _ => v

/-- Models held directly by this group. -/
def HierarchicalModelGroup.models : HierarchicalModelGroup → List Model
  | mk _ _ ms _ => ms

/-- Child groups. -/
def HierarchicalModelGroup.children : HierarchicalModelGroup → List HierarchicalModelGroup
  | mk _ _ _ cs => cs

/-- Update the last group of a sibling list when its key matches, otherwise
append a fresh group.  This models the index bookkeeping of
`build_model_hierarchy`: `provider_idx`/`type_idx`/`version_idx` always
point at the most recently appended (= last) group of their level, and a
`None` index coincides with the list (or the freshly created parent's child
list) being empty. -/
def updateLastOr (l : List HierarchicalModelGroup) (key : String)
    (upd : HierarchicalModelGroup → HierarchicalModelGroup)
    (fresh : HierarchicalModelGroup) : List HierarchicalModelGroup :=
  match l with
  | [] => [fresh]
  | [g] => if g.group_value = key then [upd g] else [g, fresh]
  | g :: gs => g :: updateLastOr gs key upd fresh

/-- Provider grouping key: original provider as supplied, else classified
provider, default "Other" when empty. -/
def provider_key (m : Model) : String :=
  let p := m.original_provider.getD m.provider
  if p = "" then "Other" else p

/-- Type grouping key: classified type, default "Standard" when absent or
empty. -/
def type_key (m : Model) : String :=
  let t := m.model_type.getD "Standard"
  if t = "" then "Standard" else t

/-- Version grouping key: classified variant, default "Default" when absent
or empty. -/
def version_key (m : Model) : String :=
  let v := m.variant.getD "Default"
  if v = "" then "Default" else v

/-- One iteration of the `build_model_hierarchy` loop: route the model into
the (possibly freshly opened) provider → type → version groups. -/
def add_model_to_groups (roots : List HierarchicalModelGroup) (m : Model) : List HierarchicalModelGroup :=
  let p := provider_key m
  let t := type_key m
  let v := version_key m
  updateLastOr roots p
    (fun pg => .mk pg.group_name pg.group_value pg.models
      (updateLastOr pg.children t
        (fun tg => .mk tg.group_name tg.group_value tg.models
          (updateLastOr tg.children v
            (fun vg => .mk vg.group_name vg.group_value (vg.models ++ [m]) vg.children)
            (.mk "version" v [m] [])))
        (.mk "type" t [] [.mk "version" v [m] []])))
    (.mk "provider" p [] [.mk "type" t [] [.mk "version" v [m] []]])

/-- `build_model_hierarchy`: clone, sort with `sort_models`, then fold the
models into the nested provider/type/version groups. -/
def build_model_hierarchy (models : List Model) : List HierarchicalModelGroup :=
  (sort_models models).foldl add_model_to_groups []

/- ---------------------------------------------------------------------
gRPC handler surface (`handlers/mod.rs`, `handlers/utils.rs`)
--------------------------------------------------------------------- -/

/-- Wire-side model record (proto `Model`); empty string / zero stand for
"absent". -/
structure ProtoModel where
  id : String
  name : String
  context_size : Int
  max_tokens : Int
  provider : String
  display_name : String
  description : String
  cost_per_token : Rat
  capabilities : List String
  family : String
  r_type : String
  series : String
  variant : String
  is_default : Bool
  is_multimodal : Bool
  is_experimental : Bool
  version : String
  metadata : List (String × String)
deriving DecidableEq

/-- One element of `convert_proto_models_to_internal`: empty strings become
`none`, and the caller-supplied provider is preserved in
`original_provider`. -/
def convert_proto_model (pm : ProtoModel) : Model :=
  { id := pm.id
    name := if pm.name = "" then none else some pm.name
    context_size := pm.context_size
    max_tokens := pm.max_tokens
    provider := pm.provider
    original_provider := some pm.provider
    display_name := if pm.display_name = "" then none else some pm.display_name
    description := if pm.description = "" then none else some pm.description
    cost_per_token := pm.cost_per_token
    capabilities := pm.capabilities
    family := if pm.family = "" then none else some pm.family
    model_type := if pm.r_type = "" then none else some pm.r_type
    series := if pm.series = "" then none else some pm.series
    variant := if pm.variant = "" then none else some pm.variant
    is_default := pm.is_default
    is_multimodal := pm.is_multimodal
    is_experimental := pm.is_experimental
    version := if pm.version = "" then none else some pm.version
    metadata := pm.metadata }

/-- The per-model enrichment step of the `classify_models` endpoint
(`handlers/mod.rs` lines 49-67): provider/series/type/variant/capabilities
and the flags are always overwritten from the classifier; context size only
when it is 0; display name only when it is absent. -/
def enrich_model (m : Model) : Model :=
  let meta := classify_model m.id m.provider
  { m with
    provider := meta.provider
    series := some meta.series
    model_type := some meta.model_type
    variant := some meta.variant
    context_size := if m.context_size = 0 then meta.context else m.context_size
    capabilities := meta.capabilities
    is_multimodal := meta.is_multimodal
    is_experimental := meta.is_experimental
    display_name := if m.display_name = none then some meta.display_name else m.display_name }

/-- `categorize_context_window` (`handlers/utils.rs`): Rust range-pattern
match on an `i32`; negative sizes fall through to the wildcard arm. -/
def categorize_context_window (size : Int) : String :=
  if 0 ≤ size ∧ size ≤ 10000 then "Small (< 10K)"
  else if 10001 ≤ size ∧ size ≤ 100000 then "Medium (10K-100K)"
  else if 100001 ≤ size ∧ size ≤ 200000 then "Large (100K-200K)"
  else "Very Large (> 200K)"

/-- Criteria for filtering/classifying models (`ClassificationCriteria`). -/
structure ClassificationCriteria where
  properties : List String
  include_experimental : Bool
  include_deprecated : Bool
  min_context_size : Int
  hierarchical : Bool

/-- Property by which models can be classified (`ClassificationProperty`). -/
structure ClassificationProperty where
  name : String
  display_name : Option String
  description : Option String
  possible_values : List String

/-- Group of models classified by a property (`ClassifiedModelGroup`). -/
structure ClassifiedModelGroup where
  property_name : String
  property_value : String
  models : List Model

/-- Response for classification (`ClassifiedModelResponse`). -/
structure ClassifiedModelResponse where
  classified_groups : List ClassifiedModelGroup
  available_properties : List ClassificationProperty
  error_message : String
  hierarchical_groups : List HierarchicalModelGroup

/-- A gRPC error status (`tonic::Status`); only the `unimplemented` kind is
produced by this service. -/
inductive GrpcStatus : Type where
  | unimplemented (msg : String) : GrpcStatus
deriving DecidableEq

/-- `ModelClassificationHandler::classify_models_with_criteria`: the body
drops the request and returns `Status::unimplemented` unconditionally. -/
def classify_models_with_criteria (_req : ClassificationCriteria) :
    Except GrpcStatus ClassifiedModelResponse :=
  Except.error (GrpcStatus.unimplemented "ClassifyModelsWithCriteria is not yet implemented")

/- ---------------------------------------------------------------------
Well-formedness predicates and concrete instances used by the theorems
--------------------------------------------------------------------- -/

/-- A well-formed version-level (leaf) group: named "version", holds at
least one model, and has no children. -/
def wfVersion (g : HierarchicalModelGroup) : Prop :=
  g.group_name = "version" ∧ g.models ≠ [] ∧ g.children = []

/-- A well-formed type-level group: named "type", holds no models of its
own, and has at least one child, all of which are well-formed version
groups. -/
def wfType (g : HierarchicalModelGroup) : Prop :=
  g.group_name = "type" ∧ g.models = [] ∧ g.children ≠ [] ∧ List.Forall wfVersion g.children

/-- A well-formed provider-level group: named "provider", holds no models of
its own, and has at least one child, all of which are well-formed type
groups.  A tree of well-formed provider groups has exactly three group
levels above every model list. -/
def wfProvider (g : HierarchicalModelGroup) : Prop :=
  g.group_name = "provider" ∧ g.models = [] ∧ g.children ≠ [] ∧ List.Forall wfType g.children

/-- The context-table entries before the "gpt-4" entry (insertion order). -/
def ctx_pre : List (String × Int) :=
  [("gpt-4o", 128000),
   ("gpt-4o-mini", 128000),
   ("gpt-4-turbo", 128000),
   ("gpt-4-vision", 128000),
   ("gpt-4-32k", 32768)]

/-- The context-table entries after the "gpt-4" entry (insertion order). -/
def ctx_post : List (String × Int) :=
  [("gpt-4.5", 128000),
   ("gpt-3.5-turbo-16k", 16385),
   ("gpt-3.5-turbo", 4096),
   ("o1", 32768),
   ("o1-mini", 32768),
   ("claude-3-opus", 200000),
   ("claude-3-sonnet", 200000),
   ("claude-3-haiku", 200000),
   ("claude-3.5-sonnet", 200000),
   ("claude-3.7-opus", 200000),
   ("claude-2", 100000),
   ("claude-instant", 100000),
   ("gemini-1.0-pro", 32768),
   ("gemini-1.5-pro", 1000000),
   ("gemini-1.5-flash", 1000000),
   ("gemini-2.0-pro", 2000000),
   ("gemini-2.0-flash", 1000000),
   ("gemini-2.0-flash-lite", 1000000)]

/-- A legitimate iteration order of the context table in which the "gpt-4"
entry is scanned first: a permutation of `context_entries`. -/
def context_entries_alt : List (String × Int) :=
  ("gpt-4", 8192) :: (ctx_pre ++ ctx_post)

/-- A model with no distinguishing fields except the given id, name,
provider (also recorded as original provider when nonempty) and version. -/
def plain_model (id : String) (name : Option String) (provider : String)
    (original : Option String) (version : Option String) : Model :=
  { id := id
    name := name
    context_size := 0
    max_tokens := 0
    provider := provider
    original_provider := original
    display_name := none
    description := none
    cost_per_token := 0
    capabilities := []
    family := none
    model_type := none
    series := none
    variant := none
    is_default := false
    is_multimodal := false
    is_experimental := false
    version := version
    metadata := [] }

/-- First model of the comparator cycle: version 0, name "a". -/
def c3_model_a : Model := plain_model "a" (some "a") "x" none (some "0")

/-- Second model of the comparator cycle: version 2e-16 (within
`f64::EPSILON` of both neighbours is only the adjacent one), name "b". -/
def c3_model_b : Model := plain_model "b" (some "b") "x" none (some "0.0000000000000002")

/-- Third model of the comparator cycle: version 4e-16, name "c". -/
def c3_model_c : Model := plain_model "c" (some "c") "x" none (some "0.0000000000000004")

/-- First OpenAI model of the §Scenario-5 input. -/
def c5_model_1 : Model := plain_model "gpt-a" none "openai" (some "openai") none

/-- The Anthropic model of the §Scenario-5 input. -/
def c5_model_2 : Model := plain_model "claude-a" none "anthropic" (some "anthropic") none

/-- Second OpenAI model of the §Scenario-5 input. -/
def c5_model_3 : Model := plain_model "gpt-b" none "openai" (some "openai") none

/-- A wire model with caller-supplied non-zero context size and display
name. -/
def c8_proto_supplied : ProtoModel :=
  { id := "gpt-4o"
    name := ""
    context_size := 7
    max_tokens := 0
    provider := "openai"
    display_name := "My GPT"
    description := ""
    cost_per_token := 0
    capabilities := []
    family := ""
    r_type := ""
    series := ""
    variant := ""
    is_default := false
    is_multimodal := false
    is_experimental := false
    version := ""
    metadata := [] }

/-- A wire model with absent context size and display name. -/
def c8_proto_absent : ProtoModel :=
  { c8_proto_supplied with context_size := 0, display_name := "" }

/- ---------------------------------------------------------------------
Helper lemmas: three-way comparison primitives
--------------------------------------------------------------------- -/

theorem intCmp_swap (x y : Int) : intCmp y x = (intCmp x y).swap := by
  unfold intCmp
  split_ifs <;> first | rfl | omega

theorem natCmp_swap (x y : Nat) : natCmp y x = (natCmp x y).swap := by
  unfold natCmp
  split_ifs <;> first | rfl | omega

theorem boolCmp_swap : ∀ x y : Bool, boolCmp y x = (boolCmp x y).swap := by decide

theorem charCmp_swap (a b : Char) : charCmp b a = (charCmp a b).swap := by
  unfold charCmp
  split_ifs <;> first | rfl | omega

theorem charCmp_lt_iff (a b : Char) : charCmp a b = .lt ↔ a.toNat < b.toNat := by
  unfold charCmp
  split_ifs with h1 h2 <;> simp <;> omega

theorem charCmp_eq_iff (a b : Char) : charCmp a b = .eq ↔ a.toNat = b.toNat := by
  unfold charCmp
  split_ifs with h1 h2 <;> simp <;> omega

theorem charsCmp_swap (as : List Char) : ∀ bs, charsCmp bs as = (charsCmp as bs).swap := by
  induction as with
  | nil => intro bs; cases bs <;> rfl
  | cons a as ih =>
    intro bs
    cases bs with
    | nil => rfl
    | cons b bs =>
      show charsCmp (b :: bs) (a :: as) = (charsCmp (a :: as) (b :: bs)).swap
      simp only [charsCmp]
      cases h : charCmp a b with
      | eq =>
        have hba : charCmp b a = .eq := by rw [charCmp_swap a b, h]; rfl
        rw [hba]
        exact ih bs
      | lt =>
        have hba : charCmp b a = .gt := by rw [charCmp_swap a b, h]; rfl
        rw [hba]
        rfl
      | gt =>
        have hba : charCmp b a = .lt := by rw [charCmp_swap a b, h]; rfl
        rw [hba]
        rfl

theorem charsCmp_nil_ne_gt (bs : List Char) : charsCmp [] bs ≠ .gt := by
  cases bs <;> simp [charsCmp]

theorem charsCmp_le_trans (as : List Char) :
    ∀ bs cs, charsCmp as bs ≠ .gt → charsCmp bs cs ≠ .gt → charsCmp as cs ≠ .gt := by
  induction as with
  | nil => intro bs cs _ _; exact charsCmp_nil_ne_gt cs
  | cons a as ih =>
    intro bs cs h1 h2
    cases bs with
    | nil => exact absurd rfl h1
    | cons b bs =>
      cases cs with
      | nil => exact absurd rfl h2
      | cons c cs =>
        simp only [charsCmp] at h1 h2 ⊢
        cases hab : charCmp a b with
        | gt => rw [hab] at h1; exact absurd rfl h1
        | lt =>
          cases hbc : charCmp b c with
          | gt => rw [hbc] at h2; exact absurd rfl h2
          | lt =>
            have : charCmp a c = .lt := by
              rw [charCmp_lt_iff] at hab hbc ⊢; omega
            rw [this]; simp
          | eq =>
            have : charCmp a c = .lt := by
              rw [charCmp_lt_iff] at hab ⊢
              rw [charCmp_eq_iff] at hbc
              omega
            rw [this]; simp
        | eq =>
          rw [hab] at h1
          cases hbc : charCmp b c with
          | gt => rw [hbc] at h2; exact absurd rfl h2
          | lt =>
            have : charCmp a c = .lt := by
              rw [charCmp_lt_iff] at hbc ⊢
              rw [charCmp_eq_iff] at hab
              omega
            rw [this]; simp
          | eq =>
            rw [hbc] at h2
            have : charCmp a c = .eq := by
              rw [charCmp_eq_iff] at hab hbc ⊢; omega
            rw [this]
            exact ih bs cs h1 h2

theorem strCmp_swap (a b : String) : strCmp b a = (strCmp a b).swap :=
  charsCmp_swap a.data b.data

theorem strCmp_le_trans {a b c : String} (h1 : strCmp a b ≠ .gt) (h2 : strCmp b c ≠ .gt) :
    strCmp a c ≠ .gt :=
  charsCmp_le_trans a.data b.data c.data h1 h2

theorem cap_le_trans_rule : ∀ a b c : String, cap_le a b → cap_le b c → cap_le a c := by
  intro a b c h1 h2
  exact strCmp_le_trans h1 h2

theorem cap_le_total_rule : ∀ a b : String, cap_le a b ∨ cap_le b a := by
  intro a b
  by_cases h : strCmp (to_lower a) (to_lower b) = .gt
  · right
    show strCmp (to_lower b) (to_lower a) ≠ .gt
    rw [strCmp_swap, h]
    simp [Ordering.swap]
  · exact Or.inl h

/- ---------------------------------------------------------------------
Helper lemmas: capability list well-formedness
--------------------------------------------------------------------- -/

theorem add_capability_mem (caps : List String) (k : String) : k ∈ add_capability caps k := by
  unfold add_capability
  split_ifs with h
  · exact h
  · simp

theorem add_capability_nodup {caps : List String} {k : String} (h : caps.Nodup) :
    (add_capability caps k).Nodup := by
  unfold add_capability
  split_ifs with hk
  · exact h
  · rw [List.nodup_append]
    refine ⟨h, List.nodup_singleton k, ?_⟩
    intro a ha hb
    rw [List.mem_singleton] at hb
    subst hb
    exact hk ha

theorem add_capabilities_nodup {caps : List String} (h : caps.Nodup)
    (mt mn p s : String) : (add_capabilities caps mt mn p s).Nodup := by
  unfold add_capabilities
  dsimp only
  split_ifs <;> first
    | exact add_capability_nodup (add_capability_nodup h)
    | exact add_capability_nodup h
    | exact h

theorem detect_capabilities_sorted (mn p s : String) :
    List.Pairwise cap_le (detect_capabilities mn p s) := by
  unfold detect_capabilities
  haveI : IsTotal String cap_le := ⟨cap_le_total_rule⟩
  haveI : IsTrans String cap_le := ⟨cap_le_trans_rule⟩
  exact List.sorted_insertionSort cap_le _

theorem detect_capabilities_nodup (mn p s : String) :
    (detect_capabilities mn p s).Nodup := by
  unfold detect_capabilities
  refine (List.perm_insertionSort cap_le _).nodup_iff.mpr ?_
  exact add_capability_nodup (add_capabilities_nodup List.nodup_nil _ mn p s)

theorem detect_capabilities_chat_mem (mn p s : String) :
    "chat" ∈ detect_capabilities mn p s := by
  unfold detect_capabilities
  exact (List.perm_insertionSort cap_le _).mem_iff.mpr (add_capability_mem _ "chat")

/- ---------------------------------------------------------------------
Helper lemmas: hierarchy well-formedness
--------------------------------------------------------------------- -/

theorem updateLastOr_ne_nil (l : List HierarchicalModelGroup) (key : String)
    (upd : HierarchicalModelGroup → HierarchicalModelGroup) (fresh : HierarchicalModelGroup) :
    updateLastOr l key upd fresh ≠ [] := by
  cases l with
  | nil => simp [updateLastOr]
  | cons g gs =>
    cases gs with
    | nil =>
      unfold updateLastOr
      split_ifs <;> simp
    | cons g2 gs2 => simp [updateLastOr]

theorem updateLastOr_forall {P : HierarchicalModelGroup → Prop}
    (l : List HierarchicalModelGroup) (key : String)
    (upd : HierarchicalModelGroup → HierarchicalModelGroup) (fresh : HierarchicalModelGroup)
    (hl : List.Forall P l) (hu : ∀ g, P g → P (upd g)) (hf : P fresh) :
    List.Forall P (updateLastOr l key upd fresh) := by
  induction l with
  | nil => simpa [updateLastOr] using hf
  | cons g gs ih =>
    cases gs with
    | nil =>
      rw [List.forall_cons] at hl
      unfold updateLastOr
      split_ifs with hk
      · simpa using hu g hl.1
      · simp only [List.forall_cons]
        exact ⟨hl.1, hf, trivial⟩
    | cons g2 gs2 =>
      rw [List.forall_cons] at hl
      show List.Forall P (g :: updateLastOr (g2 :: gs2) key upd fresh)
      rw [List.forall_cons]
      exact ⟨hl.1, ih hl.2⟩

theorem wfVersion_fresh (v : String) (m : Model) :
    wfVersion (.mk "version" v [m] []) :=
  ⟨rfl, List.cons_ne_nil m [], rfl⟩

theorem wfType_fresh (t v : String) (m : Model) :
    wfType (.mk "type" t [] [.mk "version" v [m] []]) :=
  ⟨rfl, rfl, List.cons_ne_nil _ [], (List.forall_cons _ _ _).mpr ⟨wfVersion_fresh v m, trivial⟩⟩

theorem wfProvider_fresh (p t v : String) (m : Model) :
    wfProvider (.mk "provider" p [] [.mk "type" t [] [.mk "version" v [m] []]]) :=
  ⟨rfl, rfl, List.cons_ne_nil _ [], (List.forall_cons _ _ _).mpr ⟨wfType_fresh t v m, trivial⟩⟩

theorem wfVersion_upd (m : Model) (g : HierarchicalModelGroup) (h : wfVersion g) :
    wfVersion (.mk g.group_name g.group_value (g.models ++ [m]) g.children) := by
  refine ⟨h.1, ?_, h.2.2⟩
  show g.models ++ [m] ≠ []
  simp

theorem wfType_upd (v : String) (m : Model) (g : HierarchicalModelGroup) (h : wfType g) :
    wfType (.mk g.group_name g.group_value g.models
      (updateLastOr g.children v
        (fun vg => .mk vg.group_name vg.group_value (vg.models ++ [m]) vg.children)
        (.mk "version" v [m] []))) := by
  refine ⟨h.1, h.2.1, updateLastOr_ne_nil _ _ _ _, ?_⟩
  exact updateLastOr_forall _ _ _ _ h.2.2.2 (fun g hg => wfVersion_upd m g hg) (wfVersion_fresh v m)

theorem wfProvider_upd (t v : String) (m : Model) (g : HierarchicalModelGroup) (h : wfProvider g) :
    wfProvider (.mk g.group_name g.group_value g.models
      (updateLastOr g.children t
        (fun tg => .mk tg.group_name tg.group_value tg.models
          (updateLastOr tg.children v
            (fun vg => .mk vg.group_name vg.group_value (vg.models ++ [m]) vg.children)
            (.mk "version" v [m] [])))
        (.mk "type" t [] [.mk "version" v [m] []]))) := by
  refine ⟨h.1, h.2.1, updateLastOr_ne_nil _ _ _ _, ?_⟩
  exact updateLastOr_forall _ _ _ _ h.2.2.2 (fun g hg => wfType_upd v m g hg) (wfType_fresh t v m)

theorem add_model_to_groups_forall {roots : List HierarchicalModelGroup} (m : Model)
    (h : List.Forall wfProvider roots) :
    List.Forall wfProvider (add_model_to_groups roots m) := by
  unfold add_model_to_groups
  exact updateLastOr_forall _ _ _ _ h
    (fun g hg => wfProvider_upd (type_key m) (version_key m) m g hg)
    (wfProvider_fresh (provider_key m) (type_key m) (version_key m) m)

theorem foldl_add_model_forall (ms : List Model) :
    ∀ acc, List.Forall wfProvider acc →
      List.Forall wfProvider (ms.foldl add_model_to_groups acc) := by
  induction ms with
  | nil => intro acc h; simpa using h
  | cons m ms ih =>
    intro acc h
    exact ih _ (add_model_to_groups_forall m h)

/- ---------------------------------------------------------------------
Helper lemmas: comparator component swap symmetry
--------------------------------------------------------------------- -/

theorem natDiffSym (x y w : Nat) :
    (decide ((if y ≥ x then y - x else x - y) * 4503599627370496 > w)) =
      (decide ((if x ≥ y then x - y else y - x) * 4503599627370496 > w)) := by
  rw [decide_eq_decide]
  split_ifs <;> omega

theorem verDiffGtEps_comm (a b : VerNum) : verDiffGtEps b a = verDiffGtEps a b := by
  unfold verDiffGtEps
  dsimp only
  rw [Nat.mul_comm b.den a.den]
  exact natDiffSym (a.num * b.den) (b.num * a.den) (a.den * b.den)

theorem verCmpDesc_swap (a b : VerNum) : verCmpDesc b a = (verCmpDesc a b).swap := by
  unfold verCmpDesc
  exact natCmp_swap _ _

theorem tail_cmp_swap (a b : Model) : tail_cmp b a = (tail_cmp a b).swap := by
  unfold tail_cmp
  rw [verDiffGtEps_comm (version_val a) (version_val b)]
  split_ifs with h
  · exact verCmpDesc_swap _ _
  · exact strCmp_swap _ _

theorem mini_cmp_swap (a b : Model) : mini_cmp b a = (mini_cmp a b).swap := by
  unfold mini_cmp
  rw [verDiffGtEps_comm (version_val a) (version_val b)]
  rcases eq_or_ne (mini_name_priority (name_key a)) (mini_name_priority (name_key b)) with hd | hd
  · rw [hd]
    have hne : ¬ (mini_name_priority (name_key b) ≠ mini_name_priority (name_key b)) :=
      fun hc => hc rfl
    simp only [if_neg hne]
    split_ifs with h2
    · exact verCmpDesc_swap _ _
    · exact strCmp_swap _ _
  · rw [if_pos (Ne.symm hd), if_pos hd]
    exact intCmp_swap _ _

theorem gpt4_special_swap (a b : Model) :
    gpt4_special b a = (gpt4_special a b).map Ordering.swap := by
  unfold gpt4_special
  by_cases ht : (a.model_type.getD "Standard" = "GPT 4" ∧ b.model_type.getD "Standard" = "GPT 4")
  · have ht2 : (b.model_type.getD "Standard" = "GPT 4" ∧ a.model_type.getD "Standard" = "GPT 4") :=
      ⟨ht.2, ht.1⟩
    rw [if_pos ht2, if_pos ht]
    dsimp only
    by_cases hab : (name_key a == "gpt-4o" || name_key a == "4o")
        = (name_key b == "gpt-4o" || name_key b == "4o")
    · have hab2 : ¬ ((name_key b == "gpt-4o" || name_key b == "4o")
          ≠ (name_key a == "gpt-4o" || name_key a == "4o")) := fun hc => hc hab.symm
      have hab3 : ¬ ((name_key a == "gpt-4o" || name_key a == "4o")
          ≠ (name_key b == "gpt-4o" || name_key b == "4o")) := fun hc => hc hab
      rw [if_neg hab2, if_neg hab3]
      by_cases hxy : (hasSubstr (name_key a) "4o" && !hasSubstr (name_key a) "4o-mini")
          = (hasSubstr (name_key b) "4o" && !hasSubstr (name_key b) "4o-mini")
      · have hxy2 : ¬ ((hasSubstr (name_key b) "4o" && !hasSubstr (name_key b) "4o-mini")
            ≠ (hasSubstr (name_key a) "4o" && !hasSubstr (name_key a) "4o-mini")) :=
          fun hc => hc hxy.symm
        have hxy3 : ¬ ((hasSubstr (name_key a) "4o" && !hasSubstr (name_key a) "4o-mini")
            ≠ (hasSubstr (name_key b) "4o" && !hasSubstr (name_key b) "4o-mini")) :=
          fun hc => hc hxy
        rw [if_neg hxy2, if_neg hxy3]
        rfl
      · rw [if_pos (Ne.symm hxy), if_pos hxy]
        rw [boolCmp_swap]
        rfl
    · rw [if_pos (Ne.symm hab), if_pos hab]
      rw [boolCmp_swap]
      rfl
  · have ht2 : ¬ (b.model_type.getD "Standard" = "GPT 4" ∧ a.model_type.getD "Standard" = "GPT 4") :=
      fun hc => ht ⟨hc.2, hc.1⟩
    rw [if_neg ht2, if_neg ht]
    rfl

theorem gemini_cmp_swap (a b : Model) : gemini_cmp b a = (gemini_cmp a b).swap := by
  unfold gemini_cmp
  dsimp only
  rcases eq_or_ne (gemini_type_priority (a.model_type.getD "Standard"))
      (gemini_type_priority (b.model_type.getD "Standard")) with hd | hd
  · rw [hd]
    have hne : ¬ (gemini_type_priority (b.model_type.getD "Standard")
        ≠ gemini_type_priority (b.model_type.getD "Standard")) := fun hc => hc rfl
    rw [if_neg hne, if_neg hne]
    exact tail_cmp_swap a b
  · rw [if_pos (Ne.symm hd), if_pos hd]
    exact intCmp_swap _ _

theorem claude_cmp_swap (a b : Model) : claude_cmp b a = (claude_cmp a b).swap := by
  unfold claude_cmp
  dsimp only
  rcases eq_or_ne (claude_type_priority (a.model_type.getD "Standard"))
      (claude_type_priority (b.model_type.getD "Standard")) with hd | hd
  · rw [hd]
    have hne : ¬ (claude_type_priority (b.model_type.getD "Standard")
        ≠ claude_type_priority (b.model_type.getD "Standard")) := fun hc => hc rfl
    rw [if_neg hne, if_neg hne]
    exact tail_cmp_swap a b
  · rw [if_pos (Ne.symm hd), if_pos hd]
    exact intCmp_swap _ _

theorem openai_cmp_swap (a b : Model) : openai_cmp b a = (openai_cmp a b).swap := by
  unfold openai_cmp
  dsimp only
  rcases eq_or_ne (openai_type_priority (a.model_type.getD "Standard"))
      (openai_type_priority (b.model_type.getD "Standard")) with hd | hd
  · rw [hd]
    have hne : ¬ (openai_type_priority (b.model_type.getD "Standard")
        ≠ openai_type_priority (b.model_type.getD "Standard")) := fun hc => hc rfl
    rw [if_neg hne, if_neg hne]
    rw [gpt4_special_swap a b]
    cases hg : gpt4_special a b with
    | some o => rfl
    | none =>
      show (if _ ∧ _ then _ else tail_cmp b a) = (if _ ∧ _ then _ else tail_cmp a b).swap
      split_ifs with h5
      · exact natCmp_swap _ _
      · exact tail_cmp_swap a b
  · rw [if_pos (Ne.symm hd), if_pos hd]
    exact intCmp_swap _ _

theorem provider_priority_eq_zero {p : String} (h : provider_priority p = 0) : p = "gemini" := by
  unfold provider_priority at h
  split_ifs at h with h1 h2 h3 h4 h5 <;> first | exact h1 | omega

theorem provider_priority_eq_one {p : String} (h : provider_priority p = 1) : p = "openai" := by
  unfold provider_priority at h
  split_ifs at h with h1 h2 h3 h4 h5 <;> first | exact h2 | omega

theorem provider_priority_eq_three {p : String} (h : provider_priority p = 3) :
    p = "anthropic" ∨ p = "claude" := by
  unfold provider_priority at h
  split_ifs at h with h1 h2 h3 h4 h5 <;> first | exact Or.inl h4 | exact Or.inr h5 | omega

/-- C3 (amended): the `sort_models` comparator is antisymmetric — comparing
in the opposite direction always yields the reversed ordering, so for every
pair of models exactly one of `a < b`, `b < a`, "equal by comparison key"
holds pairwise.  (The comparator is **not** transitive, hence not a strict
total order: see the counterexample cycle theorem.) -/
theorem claim_C3_comparator_antisymm (a b : Model) : cmpModels b a = (cmpModels a b).swap := by
  unfold cmpModels
  rcases eq_or_ne (provider_priority (to_lower a.provider))
      (provider_priority (to_lower b.provider)) with hp | hp
  · rw [hp]
    have hne : ¬ (provider_priority (to_lower b.provider)
        ≠ provider_priority (to_lower b.provider)) := fun hc => hc rfl
    rw [if_neg hne, if_neg hne]
    by_cases hma : (to_lower a.provider = "openai"
        ∧ to_lower (a.model_type.getD "Standard") = "mini"
        ∧ to_lower (b.model_type.getD "Standard") = "mini")
    · have hpb : to_lower b.provider = "openai" := by
        apply provider_priority_eq_one
        calc provider_priority (to_lower b.provider)
            = provider_priority (to_lower a.provider) := hp.symm
          _ = provider_priority "openai" := by rw [hma.1]
          _ = 1 := rfl
      have hmb : (to_lower b.provider = "openai"
          ∧ to_lower (b.model_type.getD "Standard") = "mini"
          ∧ to_lower (a.model_type.getD "Standard") = "mini") := ⟨hpb, hma.2.2, hma.2.1⟩
      rw [if_pos hmb, if_pos hma]
      exact mini_cmp_swap a b
    · have hmb : ¬ (to_lower b.provider = "openai"
          ∧ to_lower (b.model_type.getD "Standard") = "mini"
          ∧ to_lower (a.model_type.getD "Standard") = "mini") := by
        intro hc
        apply hma
        refine ⟨?_, hc.2.2, hc.2.1⟩
        apply provider_priority_eq_one
        calc provider_priority (to_lower a.provider)
            = provider_priority (to_lower b.provider) := hp
          _ = provider_priority "openai" := by rw [hc.1]
          _ = 1 := rfl
      rw [if_neg hmb, if_neg hma]
      by_cases hg : to_lower a.provider = "gemini"
      · have hgb : to_lower b.provider = "gemini" := by
          apply provider_priority_eq_zero
          calc provider_priority (to_lower b.provider)
              = provider_priority (to_lower a.provider) := hp.symm
            _ = provider_priority "gemini" := by rw [hg]
            _ = 0 := rfl
        rw [if_pos hgb, if_pos hg]
        exact gemini_cmp_swap a b
      · have hgb : ¬ to_lower b.provider = "gemini" := by
          intro hc
          apply hg
          apply provider_priority_eq_zero
          calc provider_priority (to_lower a.provider)
              = provider_priority (to_lower b.provider) := hp
            _ = provider_priority "gemini" := by rw [hc]
            _ = 0 := rfl
        rw [if_neg hgb, if_neg hg]
        by_cases ho : to_lower a.provider = "openai"
        · have hob : to_lower b.provider = "openai" := by
            apply provider_priority_eq_one
            calc provider_priority (to_lower b.provider)
                = provider_priority (to_lower a.provider) := hp.symm
              _ = provider_priority "openai" := by rw [ho]
              _ = 1 := rfl
          rw [if_pos hob, if_pos ho]
          exact openai_cmp_swap a b
        · have hob : ¬ to_lower b.provider = "openai" := by
            intro hc
            apply ho
            apply provider_priority_eq_one
            calc provider_priority (to_lower a.provider)
                = provider_priority (to_lower b.provider) := hp
              _ = provider_priority "openai" := by rw [hc]
              _ = 1 := rfl
          rw [if_neg hob, if_neg ho]
          by_cases hc3 : (to_lower a.provider = "anthropic" ∨ to_lower a.provider = "claude")
          · have hcb : (to_lower b.provider = "anthropic" ∨ to_lower b.provider = "claude") := by
              apply provider_priority_eq_three
              calc provider_priority (to_lower b.provider)
                  = provider_priority (to_lower a.provider) := hp.symm
                _ = 3 := by rcases hc3 with h | h <;> rw [h] <;> rfl
            rw [if_pos hcb, if_pos hc3]
            exact claude_cmp_swap a b
          · have hcb : ¬ (to_lower b.provider = "anthropic" ∨ to_lower b.provider = "claude") := by
              intro hc
              apply hc3
              apply provider_priority_eq_three
              calc provider_priority (to_lower a.provider)
                  = provider_priority (to_lower b.provider) := hp
                _ = 3 := by rcases hc with h | h <;> rw [h] <;> rfl
            rw [if_neg hcb, if_neg hc3]
            exact tail_cmp_swap a b
  · rw [if_pos (Ne.symm hp), if_pos hp]
    exact intCmp_swap _ _

/- ---------------------------------------------------------------------
Claim theorems
--------------------------------------------------------------------- -/

/-- C1 counterexample: on the image-generation short-circuit path the
capabilities list is exactly `["Image Generation"]` and does **not**
contain "chat", refuting the claim that "chat" is present on every path. -/
theorem claim_C1_counterexample :
    (classify_model "dall-e" "").capabilities = ["Image Generation"]
    ∧ (classify_model "dall-e" "").capabilities.contains "chat" = false := by decide

/-- C1 (amended): for every model id, provider hint and context-table
iteration order, the capabilities list is sorted ascending
case-insensitively and duplicate-free; "chat" is guaranteed to be a member
on the standard path (when neither the image-generation nor the embedding
short-circuit fires). -/
theorem claim_C1_capabilities_wf (ctx_order : List (String × Int)) (model_id provider_hint : String) :
    List.Pairwise cap_le (classify_model_with ctx_order model_id provider_hint).capabilities
    ∧ (classify_model_with ctx_order model_id provider_hint).capabilities.Nodup
    ∧ (is_image_generation_model (to_lower model_id) = false
        ∧ is_embedding_model (to_lower model_id) = false
        → "chat" ∈ (classify_model_with ctx_order model_id provider_hint).capabilities) := by
  unfold classify_model_with
  by_cases hi : is_image_generation_model (to_lower model_id) = true
  · rw [if_pos hi]
    refine ⟨?_, ?_, ?_⟩
    · show List.Pairwise cap_le ["Image Generation"]
      simp
    · show (["Image Generation"] : List String).Nodup
      simp
    · intro h
      rw [h.1] at hi
      exact Bool.noConfusion hi
  · rw [if_neg hi]
    by_cases he : is_embedding_model (to_lower model_id) = true
    · rw [if_pos he]
      refine ⟨?_, ?_, ?_⟩
      · show List.Pairwise cap_le ["embedding"]
        simp
      · show (["embedding"] : List String).Nodup
        simp
      · intro h
        rw [h.2] at he
        exact Bool.noConfusion he
    · rw [if_neg he]
      exact ⟨detect_capabilities_sorted _ _ _, detect_capabilities_nodup _ _ _,
        fun _ => detect_capabilities_chat_mem _ _ _⟩

/-- Witness for C1 at a concrete standard-path input. -/
theorem claim_C1_capabilities_wf_witness :
    "chat" ∈ (classify_model_with context_entries "gpt-4o" "").capabilities :=
  (claim_C1_capabilities_wf context_entries "gpt-4o" "").2.2 (by decide)

/-- The context field of the classification of "gpt-4o" is exactly the
context-table lookup, for any table iteration order. -/
theorem classify_gpt4o_context_projection (ctx_order : List (String × Int)) :
    (classify_model_with ctx_order "gpt-4o" "").context
      = get_context_size_with ctx_order "gpt-4o" := rfl

/-- Under any iteration order of the context table, the lookup for "gpt-4o"
returns the value of whichever of the two substring-matching entries
("gpt-4o" → 128000 and "gpt-4" → 8192) is scanned first. -/
theorem ctx_lookup_gpt4o {order : List (String × Int)} (h : order.Perm context_entries) :
    get_context_size_with order "gpt-4o" = 128000
    ∨ get_context_size_with order "gpt-4o" = 8192 := by
  unfold get_context_size_with
  dsimp only
  cases hf : order.find? (fun e => hasSubstr (to_lower "gpt-4o") e.1) with
  | none =>
    exfalso
    rw [List.find?_eq_none] at hf
    have hm : (("gpt-4o", (128000 : Int))) ∈ order := h.mem_iff.mpr (by decide)
    exact hf _ hm (by decide)
  | some e =>
    have hmem : e ∈ context_entries := h.subset (List.mem_of_find?_eq_some hf)
    have hpred := List.find?_some hf
    have hcases : ∀ x ∈ context_entries, hasSubstr (to_lower "gpt-4o") x.1 = true →
        x = ("gpt-4o", (128000 : Int)) ∨ x = ("gpt-4", (8192 : Int)) := by decide
    rcases hcases e hmem hpred with rfl | rfl
    · left; rfl
    · right; rfl

/-- C2 counterexample: under a legitimate iteration order of the context
table (a permutation of its entries, with the "gpt-4" entry scanned first)
the classification of "gpt-4o" carries context size 8192, not the claimed
128000. -/
theorem claim_C2_counterexample :
    context_entries_alt.Perm context_entries
    ∧ (classify_model_with context_entries_alt "gpt-4o" "").context = 8192
    ∧ decide ((classify_model_with context_entries_alt "gpt-4o" "").context = 128000) = false := by
  refine ⟨?_, by decide, by decide⟩
  have hsplit : context_entries = ctx_pre ++ ("gpt-4", (8192 : Int)) :: ctx_post := rfl
  rw [hsplit]
  exact List.perm_middle.symm

/-- C2 (amended): `classify_model("gpt-4o", "")` yields provider "openai",
type "GPT 4", variant "GPT-4o", capabilities ["chat","function-calling",
"vision"], multimodal true, experimental false; under the insertion-order
scan of the context table the context size is 128000, and under an
arbitrary iteration order of that table it is either 128000 or 8192,
depending on which matching entry is scanned first. -/
theorem claim_C2_gpt4o_classification :
    classify_model "gpt-4o" "" =
      { provider := "openai", series := "GPT", model_type := "GPT 4", variant := "GPT-4o",
        context := 128000, capabilities := ["chat", "function-calling", "vision"],
        is_multimodal := true, is_experimental := false, display_name := "gpt-4o" }
    ∧ ∀ order : List (String × Int), order.Perm context_entries →
        (classify_model_with order "gpt-4o" "").context = 128000
        ∨ (classify_model_with order "gpt-4o" "").context = 8192 := by
  refine ⟨by decide, ?_⟩
  intro order h
  rw [classify_gpt4o_context_projection]
  exact ctx_lookup_gpt4o h

/-- Witness for C2 at the insertion iteration order. -/
theorem claim_C2_gpt4o_classification_witness :
    (classify_model_with context_entries "gpt-4o" "").context = 128000
    ∨ (classify_model_with context_entries "gpt-4o" "").context = 8192 :=
  claim_C2_gpt4o_classification.2 context_entries (List.Perm.refl _)

/-- C3 counterexample: the comparator admits a strict cycle
`a < b < c < a` (versions 0, 2e-16 and 4e-16: adjacent pairs differ by
less than `f64::EPSILON` and fall to the name tie-break, while the outer
pair is separated by the version comparison), so it is not a strict total
order, contradicting consistency and order-theoretic sorting guarantees. -/
theorem claim_C3_counterexample :
    cmpModels c3_model_a c3_model_b = Ordering.lt
    ∧ cmpModels c3_model_b c3_model_c = Ordering.lt
    ∧ cmpModels c3_model_c c3_model_a = Ordering.lt := by decide

/-- C4: for every input model list, every tree produced by the hierarchy
builder is well-formed: each top-level group is a provider group holding no
models and at least one type child; each type group holds no models and at
least one version child; each version group holds at least one model and no
children — so every path from a top-level group to a model list passes
exactly the three levels provider → type → version. -/
theorem claim_C4_hierarchy_wellformed (models : List Model) :
    List.Forall wfProvider (build_model_hierarchy models) := by
  unfold build_model_hierarchy
  exact foldl_add_model_forall _ [] trivial

/-- C5: on the three-model input with providers [openai, anthropic, openai],
the hierarchy build (which first sorts with the comparator, placing openai
before anthropic) produces exactly two top-level provider groups: one
"openai" group holding both openai models and one "anthropic" group. -/
theorem claim_C5_two_provider_groups :
    build_model_hierarchy [c5_model_1, c5_model_2, c5_model_3] =
      [.mk "provider" "openai" []
        [.mk "type" "Standard" [] [.mk "version" "Default" [c5_model_1, c5_model_3] []]],
       .mk "provider" "anthropic" []
        [.mk "type" "Standard" [] [.mk "version" "Default" [c5_model_2] []]]] := rfl

/-- C6 counterexample: a negative context size falls through the Rust range
patterns to the wildcard arm, so size -1 is bucketed "Very Large", not
"Small" as the claim ("any size ≤ 10,000 → Small") requires. -/
theorem claim_C6_counterexample :
    categorize_context_window (-1) = "Very Large (> 200K)"
    ∧ decide (categorize_context_window (-1) = "Small (< 10K)") = false := by decide

/-- C6 (amended): sizes 0..10000 map to "Small", 10001..100000 to "Medium",
100001..200000 to "Large", and everything else — sizes above 200000 **and
negative sizes** — to "Very Large". -/
theorem claim_C6_context_buckets (size : Int) :
    (0 ≤ size ∧ size ≤ 10000 → categorize_context_window size = "Small (< 10K)")
    ∧ (10001 ≤ size ∧ size ≤ 100000 → categorize_context_window size = "Medium (10K-100K)")
    ∧ (100001 ≤ size ∧ size ≤ 200000 → categorize_context_window size = "Large (100K-200K)")
    ∧ (size < 0 ∨ 200000 < size → categorize_context_window size = "Very Large (> 200K)") := by
  unfold categorize_context_window
  refine ⟨?_, ?_, ?_, ?_⟩ <;> intro h <;> split_ifs <;> first | rfl | omega

/-- Witness for C6 in each bucket. -/
theorem claim_C6_context_buckets_witness :
    categorize_context_window 5000 = "Small (< 10K)"
    ∧ categorize_context_window 50000 = "Medium (10K-100K)"
    ∧ categorize_context_window 150000 = "Large (100K-200K)"
    ∧ categorize_context_window 300000 = "Very Large (> 200K)" :=
  ⟨(claim_C6_context_buckets 5000).1 (by decide),
   (claim_C6_context_buckets 50000).2.1 (by decide),
   (claim_C6_context_buckets 150000).2.2.1 (by decide),
   (claim_C6_context_buckets 300000).2.2.2 (by decide)⟩

/-- C7: classification is a total function of its inputs (it cannot fail by
construction), and the empty identifier with an empty hint degrades to
provider "other", series "General", type "Standard", context 0 and the
bare ["chat"] capability list. -/
theorem claim_C7_empty_identifier :
    (classify_model "" "").provider = "other"
    ∧ (classify_model "" "").series = "General"
    ∧ (classify_model "" "").model_type = "Standard"
    ∧ (classify_model "" "").context = 0
    ∧ (classify_model "" "").capabilities = ["chat"] := by decide

/-- C8: the endpoint enrichment never overwrites a caller-supplied non-zero
context size or a caller-supplied (non-empty) display name, fills both from
the classifier exactly when they are absent, and always replaces the
provider field with the classifier-derived provider. -/
theorem claim_C8_enrichment_frame (pm : ProtoModel) :
    (pm.context_size ≠ 0 →
      (enrich_model (convert_proto_model pm)).context_size = pm.context_size)
    ∧ (pm.display_name ≠ "" →
      (enrich_model (convert_proto_model pm)).display_name = some pm.display_name)
    ∧ (enrich_model (convert_proto_model pm)).provider
        = (classify_model pm.id pm.provider).provider
    ∧ (pm.context_size = 0 →
      (enrich_model (convert_proto_model pm)).context_size
        = (classify_model pm.id pm.provider).context)
    ∧ (pm.display_name = "" →
      (enrich_model (convert_proto_model pm)).display_name
        = some (classify_model pm.id pm.provider).display_name) := by
  refine ⟨?_, ?_, rfl, ?_, ?_⟩
  · intro h
    simp only [enrich_model, convert_proto_model]
    rw [if_neg h]
  · intro h
    simp only [enrich_model, convert_proto_model]
    rw [if_neg h]
    rw [if_neg (Option.some_ne_none pm.display_name)]
  · intro h
    simp only [enrich_model, convert_proto_model]
    rw [if_pos h]
  · intro h
    simp only [enrich_model, convert_proto_model]
    rw [if_pos h]
    rw [if_pos rfl]

/-- Witness for C8: a caller-supplied context size 7 and display name
"My GPT" survive enrichment; absent ones are filled from the classifier. -/
theorem claim_C8_enrichment_frame_witness :
    (enrich_model (convert_proto_model c8_proto_supplied)).context_size = 7
    ∧ (enrich_model (convert_proto_model c8_proto_supplied)).display_name = some "My GPT"
    ∧ (enrich_model (convert_proto_model c8_proto_absent)).context_size
        = (classify_model "gpt-4o" "openai").context
    ∧ (enrich_model (convert_proto_model c8_proto_absent)).display_name
        = some (classify_model "gpt-4o" "openai").display_name :=
  ⟨(claim_C8_enrichment_frame c8_proto_supplied).1 (by decide),
   (claim_C8_enrichment_frame c8_proto_supplied).2.1 (by decide),
   (claim_C8_enrichment_frame c8_proto_absent).2.2.2.1 rfl,
   (claim_C8_enrichment_frame c8_proto_absent).2.2.2.2 rfl⟩

/-- C9: the criteria-based classification endpoint returns the
"not implemented" error status on every request and never a successful
response. -/
theorem claim_C9_criteria_unimplemented (req : ClassificationCriteria) :
    classify_models_with_criteria req
      = Except.error (GrpcStatus.unimplemented "ClassifyModelsWithCriteria is not yet implemented")
    ∧ (classify_models_with_criteria req).toOption = none :=
  ⟨rfl, rfl⟩

/-- C10: on every path (standard, image-generation and embedding alike) and
for every context-table iteration order, the display name of the returned
metadata is exactly the lowercased model id. -/
theorem claim_C10_display_name_lowercase (ctx_order : List (String × Int))
    (model_id provider_hint : String) :
    (classify_model_with ctx_order model_id provider_hint).display_name = to_lower model_id := by
  unfold classify_model_with
  dsimp only
  split_ifs <;> rfl
